import Mathlib

namespace TriangleTime

/-- Modelled from the spec: the error the Proportion Resolver signals when the
supplied hours or proportions cannot be normalized (spec §7); the module
`triangle_time.schema` defining it is not part of the provided sources. -/
inductive InvalidInputError
  | mk
deriving DecidableEq

/-- Modelled from the spec: the Task record (spec §3); the module
`triangle_time.schema` defining it is not part of the provided sources.
Raw hours default to 0, `T_total` and the three proportions are optional.
Numeric fields are exact rationals standing for the Python floats. -/
structure Task where
  task_id : Option String := none
  T_gov : ℚ := 0
  T_azure : ℚ := 0
  T_ds : ℚ := 0
  T_total : Option ℚ := none
  p_gov : Option ℚ := none
  p_azure : Option ℚ := none
  p_ds : Option ℚ := none
deriving DecidableEq

/-- Modelled from the spec: the denominator used when proportions are computed
from raw hours — `T_total` when explicitly supplied and positive, the sum of
the raw hours otherwise (spec §4.1). -/
def resolveTotal (t : Task) : ℚ :=
  match t.T_total with
  | some tt => if 0 < tt then tt else t.T_gov + t.T_azure + t.T_ds
  | none => t.T_gov + t.T_azure + t.T_ds

/-- Modelled from the spec: the Proportion Resolver `update_task_proportions`
(spec §4.1); the module `triangle_time.triangle_model` defining it is not part
of the provided sources.  If all three proportions are present they are
re-normalized by their sum (error when the sum is nonpositive); otherwise the
proportions are computed from raw hours divided by `resolveTotal` (error when
that total is nonpositive).  Raising an exception is modelled by `Except`. -/
def update_task_proportions (t : Task) : Except InvalidInputError Task :=
  match t.p_gov, t.p_azure, t.p_ds with
  | some pg, some pa, some pd =>
    let s := pg + pa + pd
    if s ≤ 0 then .error .mk
    else .ok { t with p_gov := some (pg / s), p_azure := some (pa / s),
                      p_ds := some (pd / s) }
  | _, _, _ =>
    let total := resolveTotal t
    if total ≤ 0 then .error .mk
    else .ok { t with p_gov := some (t.T_gov / total),
                      p_azure := some (t.T_azure / total),
                      p_ds := some (t.T_ds / total) }

/-- Modelled from the spec: the fitted parameter set (spec §3); the module
`triangle_time.schema` defining it is not part of the provided sources.
Base times, the entropy weight and the entropy flag; real-valued. -/
structure ModelParams where
  T_gov_star : ℝ
  T_azure_star : ℝ
  T_ds_star : ℝ
  eta : ℝ
  use_entropy : Bool

/-- Modelled from the spec: one summand of the Shannon entropy with the
limiting convention that a zero proportion contributes exactly 0 (spec §4.2). -/
noncomputable def entropyTerm (p : ℝ) : ℝ :=
  if p = 0 then 0 else p * Real.log p

/-- Modelled from the spec: the Shannon entropy `H = -Σ p_i * ln p_i` of the
three proportions (spec §4.2). -/
noncomputable def shannonH (pg pa pd : ℝ) : ℝ :=
  -(entropyTerm pg + entropyTerm pa + entropyTerm pd)

/-- Modelled from the spec: the linear component of the prediction
`p_gov * T_gov_star + p_azure * T_azure_star + p_ds * T_ds_star` (spec §4.2). -/
noncomputable def linear_component (pg pa pd : ℝ) (mp : ModelParams) : ℝ :=
  pg * mp.T_gov_star + pa * mp.T_azure_star + pd * mp.T_ds_star

/-- Modelled from the spec: the Time Predictor on resolved proportions,
`T_pred = linear_component + (eta * H if use_entropy else 0)` (spec §4.2). -/
noncomputable def predictFromProps (pg pa pd : ℝ) (mp : ModelParams) : ℝ :=
  linear_component pg pa pd mp +
    (if mp.use_entropy then mp.eta * shannonH pg pa pd else 0)

/-- Modelled from the spec: `predict_time_for_task` from
`triangle_time.triangle_model` (not part of the provided sources); it consumes
the task's already-resolved proportions without re-normalizing them (spec
§4.2); an absent proportion is read as 0. -/
noncomputable def predict_time_for_task (t : Task) (mp : ModelParams) : ℝ :=
  predictFromProps (t.p_gov.getD 0 : ℚ) (t.p_azure.getD 0 : ℚ)
    (t.p_ds.getD 0 : ℚ) mp

/-- Modelled from the spec: the task log store (spec §6) is the parsed content
of the CSV file, `none` when the file does not exist; `load_tasks_from_csv`
from `triangle_time.data_io` (not part of the provided sources) round-trips
the stored task list, and a missing file reads as the empty list. -/
def load_tasks_from_csv (fs : Option (List Task)) : List Task :=
  fs.getD []

/-- Embeds `append_task_to_csv` from `src/app/api.py`: load the existing log
(empty when the file is absent), append the once-more-resolved task, and save
the whole list; the saved list is returned, an exception escaping from
`update_task_proportions` is the `Except.error` case, in which nothing is
saved. -/
def append_task_to_csv (task : Task) (fs : Option (List Task)) :
    Except InvalidInputError (List Task) :=
  match update_task_proportions task with
  | .error e => .error e
  | .ok t => .ok (load_tasks_from_csv fs ++ [t])

/-- Embeds the `/log_task` handler `log_task` from `src/app/api.py`: resolve
the payload task, append it to the CSV log, and return the new log content
together with the task echoed in the response body. -/
def log_task (t : Task) (fs : Option (List Task)) :
    Except InvalidInputError (Option (List Task) × Task) :=
  match update_task_proportions t with
  | .error e => .error e
  | .ok t1 =>
    match append_task_to_csv t1 fs with
    | .error e => .error e
    | .ok saved => .ok (some saved, t1)

/-- State of a task after a call to the resolver, for the atomicity claim: the
resolved task on success, the untouched input on error (spec §4.1 leaves
new-value vs. in-place as an unobservable design choice). -/
def resolve_post_state (t : Task) : Task :=
  match update_task_proportions t with
  | .ok t' => t'
  | .error _ => t

/-- Condition under which the resolver's denominator is the raw-hour sum: the
declared `T_total`, when supplied and positive, does not differ from
`T_gov + T_azure + T_ds`. -/
def usesRawDenominator (t : Task) : Prop :=
  ∀ x, t.T_total = some x → 0 < x → x = t.T_gov + t.T_azure + t.T_ds

/-- Example task from the spec's test list: raw hours (1, 1, 1) with a
declared total of 10. -/
def tTotalTask : Task :=
  { T_gov := 1, T_azure := 1, T_ds := 1, T_total := some 10 }

/-- `tTotalTask` after one pass of the resolver. -/
def tTotalResolved : Task :=
  { T_gov := 1, T_azure := 1, T_ds := 1, T_total := some 10,
    p_gov := some (1/10), p_azure := some (1/10), p_ds := some (1/10) }

/-- Demo task resolved from raw hours only. -/
def demoHours : Task := { T_gov := 1, T_azure := 1 }

/-- `demoHours` after the resolver has filled in its proportions. -/
def demoResolved : Task :=
  { T_gov := 1, T_azure := 1,
    p_gov := some (1/2), p_azure := some (1/2), p_ds := some 0 }

/-- `tTotalResolved` after a second pass of the resolver, which re-normalizes
(1/10, 1/10, 1/10) by their sum 3/10. -/
def tTotalResolvedTwice : Task :=
  { T_gov := 1, T_azure := 1, T_ds := 1, T_total := some 10,
    p_gov := some (1/3), p_azure := some (1/3), p_ds := some (1/3) }

/-- The zero-effort task from the spec's test list: all raw hours 0, nothing
else supplied. -/
def zeroTask : Task := {}

/-- Task with a negative raw hour, the pass-through the spec's edge-case
policy explicitly allows into the resolver. -/
def negTask : Task := { T_gov := -1, T_azure := 2 }

/-- `negTask` after one pass of the resolver: total is 1, so the negative
hour becomes a negative proportion. -/
def negResolved : Task :=
  { T_gov := -1, T_azure := 2,
    p_gov := some (-1), p_azure := some 2, p_ds := some 0 }

/-- The parameter set from the spec's test list: base times (10, 20, 30),
`eta = 0`, entropy disabled. -/
def linearParams : ModelParams :=
  { T_gov_star := 10, T_azure_star := 20, T_ds_star := 30,
    eta := 0, use_entropy := false }

/-- Task already resolved at the pure-governance vertex (1, 0, 0). -/
def pureGovTask : Task :=
  { p_gov := some 1, p_azure := some 0, p_ds := some 0 }

/-- Task already resolved at the pure-Azure vertex (0, 1, 0). -/
def pureAzureTask : Task :=
  { p_gov := some 0, p_azure := some 1, p_ds := some 0 }

/-- Task already resolved at the pure-data vertex (0, 0, 1). -/
def pureDsTask : Task :=
  { p_gov := some 0, p_azure := some 0, p_ds := some 1 }

/-- Task already resolved at the barycenter (1/3, 1/3, 1/3). -/
def thirdsTask : Task :=
  { p_gov := some (1/3), p_azure := some (1/3), p_ds := some (1/3) }

section ResolverLemmas

lemma resolver_props_branch (id : Option String) (Tg Ta Td : ℚ) (Tt : Option ℚ)
    (pg pa pd : ℚ) :
    update_task_proportions ⟨id, Tg, Ta, Td, Tt, some pg, some pa, some pd⟩ =
      (if pg + pa + pd ≤ 0 then .error .mk
       else .ok ⟨id, Tg, Ta, Td, Tt, some (pg / (pg + pa + pd)),
                 some (pa / (pg + pa + pd)), some (pd / (pg + pa + pd))⟩) := rfl

lemma resolver_hours_branch (t : Task)
    (h : t.p_gov = none ∨ t.p_azure = none ∨ t.p_ds = none) :
    update_task_proportions t =
      (if resolveTotal t ≤ 0 then .error .mk
       else .ok { t with p_gov := some (t.T_gov / resolveTotal t),
                         p_azure := some (t.T_azure / resolveTotal t),
                         p_ds := some (t.T_ds / resolveTotal t) }) := by
  obtain ⟨id, Tg, Ta, Td, Tt, opg, opa, opd⟩ := t
  rcases opg with _ | pg <;> rcases opa with _ | pa <;> rcases opd with _ | pd <;>
    simp_all [update_task_proportions]

lemma update_ok_cases (t t' : Task) (h : update_task_proportions t = .ok t') :
    (∃ pg pa pd, t.p_gov = some pg ∧ t.p_azure = some pa ∧ t.p_ds = some pd ∧
      0 < pg + pa + pd ∧
      t' = { t with p_gov := some (pg / (pg + pa + pd)),
                    p_azure := some (pa / (pg + pa + pd)),
                    p_ds := some (pd / (pg + pa + pd)) }) ∨
    ((t.p_gov = none ∨ t.p_azure = none ∨ t.p_ds = none) ∧
      0 < resolveTotal t ∧
      t' = { t with p_gov := some (t.T_gov / resolveTotal t),
                    p_azure := some (t.T_azure / resolveTotal t),
                    p_ds := some (t.T_ds / resolveTotal t) }) := by
  by_cases hall : t.p_gov.isSome ∧ t.p_azure.isSome ∧ t.p_ds.isSome
  · obtain ⟨pg, hg⟩ := Option.isSome_iff_exists.mp hall.1
    obtain ⟨pa, ha⟩ := Option.isSome_iff_exists.mp hall.2.1
    obtain ⟨pd, hd⟩ := Option.isSome_iff_exists.mp hall.2.2
    obtain ⟨id, Tg, Ta, Td, Tt, opg, opa, opd⟩ := t
    simp only at hg ha hd
    subst hg ha hd
    rw [resolver_props_branch] at h
    by_cases hs : pg + pa + pd ≤ 0
    · rw [if_pos hs] at h; cases h
    · rw [if_neg hs] at h
      exact Or.inl ⟨pg, pa, pd, rfl, rfl, rfl, lt_of_not_le hs,
        ((Except.ok.injEq _ _).mp h).symm⟩
  · have hnone : t.p_gov = none ∨ t.p_azure = none ∨ t.p_ds = none := by
      by_contra hc
      push_neg at hc
      exact hall ⟨Option.ne_none_iff_isSome.mp hc.1,
        Option.ne_none_iff_isSome.mp hc.2.1, Option.ne_none_iff_isSome.mp hc.2.2⟩
    rw [resolver_hours_branch t hnone] at h
    by_cases hs : resolveTotal t ≤ 0
    · rw [if_pos hs] at h; cases h
    · rw [if_neg hs] at h
      exact Or.inr ⟨hnone, lt_of_not_le hs, ((Except.ok.injEq _ _).mp h).symm⟩

lemma resolveTotal_eq_sum (t : Task) (h : usesRawDenominator t) :
    resolveTotal t = t.T_gov + t.T_azure + t.T_ds := by
  unfold resolveTotal
  cases hT : t.T_total with
  | none => rfl
  | some v =>
    show (if 0 < v then v else t.T_gov + t.T_azure + t.T_ds) =
      t.T_gov + t.T_azure + t.T_ds
    by_cases hv : 0 < v
    · rw [if_pos hv]
      exact h v hT hv
    · rw [if_neg hv]

lemma update_ok_sum_one (t t' : Task) (h : update_task_proportions t = .ok t')
    (hc : (t.p_gov.isSome ∧ t.p_azure.isSome ∧ t.p_ds.isSome) ∨ usesRawDenominator t) :
    t'.p_gov.isSome ∧ t'.p_azure.isSome ∧ t'.p_ds.isSome ∧
      t'.p_gov.getD 0 + t'.p_azure.getD 0 + t'.p_ds.getD 0 = 1 := by
  rcases update_ok_cases t t' h with
    ⟨pg, pa, pd, hg, ha, hd, hs, ht'⟩ | ⟨hnone, hs, ht'⟩
  · subst ht'
    refine ⟨by simp, by simp, by simp, ?_⟩
    simp only [Option.getD_some]
    rw [div_add_div_same, div_add_div_same, div_self (ne_of_gt hs)]
  · have hraw : usesRawDenominator t := by
      rcases hc with h1 | h2
      · rcases hnone with hn | hn | hn <;> simp [hn] at h1
      · exact h2
    subst ht'
    refine ⟨by simp, by simp, by simp, ?_⟩
    simp only [Option.getD_some]
    rw [div_add_div_same, div_add_div_same, ← resolveTotal_eq_sum t hraw,
      div_self (ne_of_gt hs)]

lemma update_of_unit_sum (t : Task) (pg pa pd : ℚ) (hg : t.p_gov = some pg)
    (ha : t.p_azure = some pa) (hd : t.p_ds = some pd)
    (hsum : pg + pa + pd = 1) :
    update_task_proportions t = .ok t := by
  obtain ⟨id, Tg, Ta, Td, Tt, opg, opa, opd⟩ := t
  obtain rfl : opg = some pg := hg
  obtain rfl : opa = some pa := ha
  obtain rfl : opd = some pd := hd
  rw [resolver_props_branch, hsum]
  norm_num

end ResolverLemmas

/-- C4: when all three proportions are supplied, the resolver re-normalizes
them by dividing each by their sum, ignoring the raw hours and `T_total`,
and raises `InvalidInputError` exactly when that sum is nonpositive. -/
theorem resolve_renormalizes_supplied_props (id : Option String)
    (Tg Ta Td : ℚ) (Tt : Option ℚ) (pg pa pd : ℚ) :
    update_task_proportions ⟨id, Tg, Ta, Td, Tt, some pg, some pa, some pd⟩ =
      (if pg + pa + pd ≤ 0 then .error .mk
       else .ok ⟨id, Tg, Ta, Td, Tt, some (pg / (pg + pa + pd)),
                 some (pa / (pg + pa + pd)), some (pd / (pg + pa + pd))⟩) :=
  resolver_props_branch id Tg Ta Td Tt pg pa pd

/-- C3: when not all three proportions are supplied, the resolver divides the
raw hours by the total — `T_total` when supplied and positive, the raw-hour
sum otherwise — and raises `InvalidInputError` exactly when that total is
nonpositive; in particular the all-zero task is rejected and
`Task(T_gov=1, T_azure=1, T_ds=1, T_total=10)` resolves to proportions
(1/10, 1/10, 1/10). -/
theorem resolve_from_hours_spec (t : Task)
    (h : t.p_gov = none ∨ t.p_azure = none ∨ t.p_ds = none) :
    (update_task_proportions t =
      if resolveTotal t ≤ 0 then .error .mk
      else .ok { t with p_gov := some (t.T_gov / resolveTotal t),
                        p_azure := some (t.T_azure / resolveTotal t),
                        p_ds := some (t.T_ds / resolveTotal t) }) ∧
    update_task_proportions zeroTask = .error .mk ∧
    update_task_proportions tTotalTask = .ok tTotalResolved := by
  refine ⟨resolver_hours_branch t h, ?_, ?_⟩
  · norm_num [update_task_proportions, resolveTotal, zeroTask]
  · norm_num [update_task_proportions, resolveTotal, tTotalTask,
      tTotalResolved, Task.mk.injEq]

/-- C3 witness: instantiating the branch description at the task with raw
hours (1, 1, 1) and declared total 10 computes proportions (1/10, 1/10,
1/10). -/
theorem resolve_from_hours_spec_witness :
    update_task_proportions tTotalTask = .ok tTotalResolved :=
  ((resolve_from_hours_spec tTotalTask (Or.inl rfl)).1).trans
    (by norm_num [resolveTotal, tTotalTask, tTotalResolved, Task.mk.injEq])

/-- C2 counterexample: the spec's own `T_total`-preference example resolves
successfully to proportions summing to 3/10, which is not within 1e-9 of 1. -/
theorem sum_to_one_fails_under_T_total :
    update_task_proportions tTotalTask = .ok tTotalResolved ∧
    tTotalResolved.p_gov.getD 0 + tTotalResolved.p_azure.getD 0 +
      tTotalResolved.p_ds.getD 0 = 3/10 ∧
    ¬ |(3/10 : ℚ) - 1| ≤ 1/1000000000 := by
  refine ⟨?_, by norm_num [tTotalResolved], by rw [abs_sub_comm, abs_of_pos] <;> norm_num⟩
  norm_num [update_task_proportions, resolveTotal, tTotalTask,
    tTotalResolved, Task.mk.injEq]

/-- C2 amended: for every task on which the resolver succeeds and whose
resolution is not driven by a supplied positive `T_total` differing from the
raw-hour sum, the resolved proportions are all present and sum exactly to 1
(hence within tolerance 1e-9). -/
theorem resolved_props_sum_to_one (t t' : Task)
    (h : update_task_proportions t = .ok t')
    (hc : (t.p_gov.isSome ∧ t.p_azure.isSome ∧ t.p_ds.isSome) ∨
      usesRawDenominator t) :
    t'.p_gov.isSome ∧ t'.p_azure.isSome ∧ t'.p_ds.isSome ∧
      t'.p_gov.getD 0 + t'.p_azure.getD 0 + t'.p_ds.getD 0 = 1 ∧
      |t'.p_gov.getD 0 + t'.p_azure.getD 0 + t'.p_ds.getD 0 - 1| ≤
        1/1000000000 := by
  obtain ⟨h1, h2, h3, h4⟩ := update_ok_sum_one t t' h hc
  exact ⟨h1, h2, h3, h4, by rw [h4, sub_self, abs_zero]; norm_num⟩

/-- C2 witness: the task with raw hours (1, 1, 0) and no declared total
resolves to proportions (1/2, 1/2, 0), which sum to 1. -/
theorem resolved_props_sum_to_one_witness :
    demoResolved.p_gov.isSome ∧ demoResolved.p_azure.isSome ∧
      demoResolved.p_ds.isSome ∧
      demoResolved.p_gov.getD 0 + demoResolved.p_azure.getD 0 +
        demoResolved.p_ds.getD 0 = 1 ∧
      |demoResolved.p_gov.getD 0 + demoResolved.p_azure.getD 0 +
        demoResolved.p_ds.getD 0 - 1| ≤ 1/1000000000 :=
  resolved_props_sum_to_one demoHours demoResolved
    (by norm_num [update_task_proportions, resolveTotal, demoHours,
      demoResolved, Task.mk.injEq])
    (Or.inr (by simp [usesRawDenominator, demoHours]))

/-- C6 counterexample: re-running the resolver on the resolved
`T_total`-preference example re-normalizes (1/10, 1/10, 1/10) to
(1/3, 1/3, 1/3), so `Resolve (Resolve t) ≠ Resolve t` there. -/
theorem resolve_not_idempotent_under_T_total :
    update_task_proportions tTotalTask = .ok tTotalResolved ∧
    update_task_proportions tTotalResolved = .ok tTotalResolvedTwice ∧
    update_task_proportions tTotalResolved ≠ .ok tTotalResolved := by
  refine ⟨?_, ?_, ?_⟩
  · norm_num [update_task_proportions, resolveTotal, tTotalTask,
      tTotalResolved, Task.mk.injEq]
  · norm_num [update_task_proportions, tTotalResolved, tTotalResolvedTwice,
      Task.mk.injEq]
  · intro hcontra
    have hstep : update_task_proportions tTotalResolved =
        .ok tTotalResolvedTwice := by
      norm_num [update_task_proportions, tTotalResolved, tTotalResolvedTwice,
        Task.mk.injEq]
    rw [hstep] at hcontra
    simp [tTotalResolved, tTotalResolvedTwice, Task.mk.injEq] at hcontra

/-- C6 amended: re-resolution is a no-op (exactly, not only up to tolerance)
for every task that resolves successfully and whose resolution is not driven
by a supplied positive `T_total` differing from the raw-hour sum. -/
theorem resolve_idempotent_without_override (t t' : Task)
    (h : update_task_proportions t = .ok t')
    (hc : (t.p_gov.isSome ∧ t.p_azure.isSome ∧ t.p_ds.isSome) ∨
      usesRawDenominator t) :
    update_task_proportions t' = .ok t' := by
  obtain ⟨h1, h2, h3, h4⟩ := update_ok_sum_one t t' h hc
  obtain ⟨pg, hg⟩ := Option.isSome_iff_exists.mp h1
  obtain ⟨pa, ha⟩ := Option.isSome_iff_exists.mp h2
  obtain ⟨pd, hd⟩ := Option.isSome_iff_exists.mp h3
  refine update_of_unit_sum t' pg pa pd hg ha hd ?_
  rw [hg, ha, hd] at h4
  simpa using h4

/-- C6 witness: resolving the already-resolved (1/2, 1/2, 0) task returns it
unchanged. -/
theorem resolve_idempotent_without_override_witness :
    update_task_proportions demoResolved = .ok demoResolved :=
  resolve_idempotent_without_override demoHours demoResolved
    (by norm_num [update_task_proportions, resolveTotal, demoHours,
      demoResolved, Task.mk.injEq])
    (Or.inr (by simp [usesRawDenominator, demoHours]))

/-- C8: when the resolver raises `InvalidInputError`, no resolved task is
produced and the task state after the call is the unchanged input. -/
theorem resolve_error_atomic (t : Task) (e : InvalidInputError)
    (h : update_task_proportions t = .error e) :
    resolve_post_state t = t ∧ ∀ u, update_task_proportions t ≠ .ok u := by
  constructor
  · unfold resolve_post_state
    rw [h]
  · intro u hu
    rw [h] at hu
    cases hu

/-- C8 witness: the all-zero task makes the resolver raise, and its state is
untouched. -/
theorem resolve_error_atomic_witness : resolve_post_state zeroTask = zeroTask :=
  (resolve_error_atomic zeroTask .mk
    (by norm_num [update_task_proportions, resolveTotal, zeroTask])).1

/-- C7 counterexample: the resolver succeeds on raw hours (-1, 2, 0) — the
negative-hour pass-through the spec's edge-case policy allows — and produces
`p_gov = -1 < 0` and `p_azure = 2 > 1`, both outside [0, 1]. -/
theorem resolved_prop_outside_unit_interval :
    update_task_proportions negTask = .ok negResolved ∧
    negResolved.p_gov.getD 0 < 0 ∧ 1 < negResolved.p_azure.getD 0 := by
  refine ⟨?_, by norm_num [negResolved], by norm_num [negResolved]⟩
  norm_num [update_task_proportions, resolveTotal, negTask, negResolved,
    Task.mk.injEq]

/-- C7 amended: every resolved proportion lies in [0, 1] provided all supplied
fields of the task are non-negative and a supplied positive `T_total` is at
least the raw-hour sum. -/
theorem resolved_props_in_unit_interval (t t' : Task)
    (h : update_task_proportions t = .ok t')
    (hTg : 0 ≤ t.T_gov) (hTa : 0 ≤ t.T_azure) (hTd : 0 ≤ t.T_ds)
    (hTt : ∀ x, t.T_total = some x → 0 < x →
      t.T_gov + t.T_azure + t.T_ds ≤ x)
    (hpg : ∀ x, t.p_gov = some x → 0 ≤ x)
    (hpa : ∀ x, t.p_azure = some x → 0 ≤ x)
    (hpd : ∀ x, t.p_ds = some x → 0 ≤ x) :
    (0 ≤ t'.p_gov.getD 0 ∧ t'.p_gov.getD 0 ≤ 1) ∧
    (0 ≤ t'.p_azure.getD 0 ∧ t'.p_azure.getD 0 ≤ 1) ∧
    (0 ≤ t'.p_ds.getD 0 ∧ t'.p_ds.getD 0 ≤ 1) := by
  rcases update_ok_cases t t' h with
    ⟨pg, pa, pd, hg, ha, hd, hs, ht'⟩ | ⟨hnone, hs, ht'⟩
  · have h0g := hpg pg hg
    have h0a := hpa pa ha
    have h0d := hpd pd hd
    subst ht'
    simp only [Option.getD_some]
    exact ⟨⟨div_nonneg h0g hs.le, (div_le_one hs).mpr (by linarith)⟩,
      ⟨div_nonneg h0a hs.le, (div_le_one hs).mpr (by linarith)⟩,
      ⟨div_nonneg h0d hs.le, (div_le_one hs).mpr (by linarith)⟩⟩
  · have hge : t.T_gov + t.T_azure + t.T_ds ≤ resolveTotal t := by
      unfold resolveTotal
      cases hT : t.T_total with
      | none => exact le_refl _
      | some v =>
        show t.T_gov + t.T_azure + t.T_ds ≤
          if 0 < v then v else t.T_gov + t.T_azure + t.T_ds
        by_cases hv : 0 < v
        · rw [if_pos hv]
          exact hTt v hT hv
        · rw [if_neg hv]
    subst ht'
    simp only [Option.getD_some]
    exact ⟨⟨div_nonneg hTg hs.le, (div_le_one hs).mpr (by linarith)⟩,
      ⟨div_nonneg hTa hs.le, (div_le_one hs).mpr (by linarith)⟩,
      ⟨div_nonneg hTd hs.le, (div_le_one hs).mpr (by linarith)⟩⟩

/-- C7 witness: the non-negative task with raw hours (1, 1, 0) resolves to
(1/2, 1/2, 0), each inside [0, 1]. -/
theorem resolved_props_in_unit_interval_witness :
    (0 ≤ demoResolved.p_gov.getD 0 ∧ demoResolved.p_gov.getD 0 ≤ 1) ∧
    (0 ≤ demoResolved.p_azure.getD 0 ∧ demoResolved.p_azure.getD 0 ≤ 1) ∧
    (0 ≤ demoResolved.p_ds.getD 0 ∧ demoResolved.p_ds.getD 0 ≤ 1) :=
  resolved_props_in_unit_interval demoHours demoResolved
    (by norm_num [update_task_proportions, resolveTotal, demoHours,
      demoResolved, Task.mk.injEq])
    (by norm_num [demoHours]) (by norm_num [demoHours])
    (by norm_num [demoHours]) (by simp [demoHours])
    (by simp [demoHours]) (by simp [demoHours]) (by simp [demoHours])

/-- C5: the entropy summand at a zero proportion is exactly 0 (the 0·ln 0
convention), the entropy of the pure vertex (1, 0, 0) is exactly 0, and the
prediction there is the bare base time whatever `eta` and `use_entropy`
are. -/
theorem entropy_zero_convention :
    entropyTerm 0 = 0 ∧ shannonH 1 0 0 = 0 ∧
    (∀ mp : ModelParams, predictFromProps 1 0 0 mp = mp.T_gov_star) := by
  refine ⟨by simp [entropyTerm], ?_, ?_⟩
  · simp [shannonH, entropyTerm, Real.log_one]
  · intro mp
    cases hb : mp.use_entropy <;>
      simp [predictFromProps, linear_component, hb, shannonH, entropyTerm,
        Real.log_one]

/-- C1: on a task with resolved proportions the predictor returns
`linear_component + (eta * H if use_entropy else 0)` with `H` the Shannon
entropy `-Σ p_i ln p_i`; with base times (10, 20, 30), `eta = 0` and entropy
disabled, the proportion triples (1,0,0), (0,1,0), (0,0,1) and (1/3,1/3,1/3)
predict exactly 10, 20, 30 and 20. -/
theorem predict_linear_entropy_formula :
    (∀ (id : Option String) (Tg Ta Td : ℚ) (Tt : Option ℚ) (pg pa pd : ℚ)
      (mp : ModelParams),
      predict_time_for_task ⟨id, Tg, Ta, Td, Tt, some pg, some pa, some pd⟩
          mp =
        ((pg : ℝ) * mp.T_gov_star + (pa : ℝ) * mp.T_azure_star +
          (pd : ℝ) * mp.T_ds_star) +
        (if mp.use_entropy then mp.eta * shannonH pg pa pd else 0)) ∧
    (∀ x y z : ℝ, shannonH x y z =
      -(x * Real.log x + y * Real.log y + z * Real.log z)) ∧
    predict_time_for_task pureGovTask linearParams = 10 ∧
    predict_time_for_task pureAzureTask linearParams = 20 ∧
    predict_time_for_task pureDsTask linearParams = 30 ∧
    predict_time_for_task thirdsTask linearParams = 20 := by
  have e : ∀ p : ℝ, entropyTerm p = p * Real.log p := by
    intro p
    by_cases hp : p = 0 <;> simp [entropyTerm, hp]
  refine ⟨?_, ?_, ?_, ?_, ?_, ?_⟩
  · intro id Tg Ta Td Tt pg pa pd mp
    simp [predict_time_for_task, predictFromProps, linear_component]
  · intro x y z
    simp [shannonH, e]
  · norm_num [predict_time_for_task, predictFromProps, linear_component,
      pureGovTask, linearParams]
  · norm_num [predict_time_for_task, predictFromProps, linear_component,
      pureAzureTask, linearParams]
  · norm_num [predict_time_for_task, predictFromProps, linear_component,
      pureDsTask, linearParams]
  · norm_num [predict_time_for_task, predictFromProps, linear_component,
      thirdsTask, linearParams]

/-- C9: a successful `/log_task` call resolves the payload twice before
persistence — the response echoes the once-resolved task, while the saved log
is the prior content with the twice-resolved task appended. -/
theorem log_task_resolves_twice (t : Task) (fs fsOut : Option (List Task))
    (resp : Task) (h : log_task t fs = .ok (fsOut, resp)) :
    update_task_proportions t = .ok resp ∧
    (update_task_proportions resp).toOption.isSome ∧
    fsOut = some (load_tasks_from_csv fs ++
      [(update_task_proportions resp).toOption.getD resp]) := by
  unfold log_task at h
  split at h
  · cases h
  · rename_i t1 h1
    unfold append_task_to_csv at h
    split at h
    · cases h
    · rename_i saved hsave
      split at hsave
      · cases hsave
      · rename_i t2 h2
        simp only [Except.ok.injEq] at hsave
        subst hsave
        simp only [Except.ok.injEq, Prod.mk.injEq] at h
        obtain ⟨hfs, hresp⟩ := h
        subst hresp
        subst hfs
        exact ⟨h1, by simp [h2, Except.toOption],
          by simp [h2, Except.toOption]⟩

/-- C9 witness: logging the raw-hours task (1, 1, 0) into an absent log file
returns the once-resolved task and stores exactly it (resolution is a no-op
the second time here). -/
theorem log_task_resolves_twice_witness :
    update_task_proportions demoHours = .ok demoResolved ∧
    (update_task_proportions demoResolved).toOption.isSome ∧
    (some [demoResolved] : Option (List Task)) =
      some (load_tasks_from_csv none ++
        [(update_task_proportions demoResolved).toOption.getD demoResolved]) :=
  log_task_resolves_twice demoHours none (some [demoResolved]) demoResolved
    (by
      have h1 : update_task_proportions demoHours = .ok demoResolved := by
        norm_num [update_task_proportions, resolveTotal, demoHours,
          demoResolved, Task.mk.injEq]
      have h2 : update_task_proportions demoResolved = .ok demoResolved := by
        norm_num [update_task_proportions, demoResolved, Task.mk.injEq]
      simp [log_task, append_task_to_csv, h1, h2, load_tasks_from_csv])

/-- C10: a successful `append_task_to_csv` saves exactly the previously loaded
log (empty when the file is absent) with the once-more-resolved task appended
at the end: same length plus one, and dropping the last element gives back the
old log unchanged. -/
theorem append_appends_exactly_one (task : Task) (fs : Option (List Task))
    (out : List Task) (h : append_task_to_csv task fs = .ok out) :
    (update_task_proportions task).toOption.isSome ∧
    out = load_tasks_from_csv fs ++
      [(update_task_proportions task).toOption.getD task] ∧
    out.dropLast = load_tasks_from_csv fs ∧
    out.length = (load_tasks_from_csv fs).length + 1 := by
  unfold append_task_to_csv at h
  split at h
  · cases h
  · rename_i t1 h1
    simp only [Except.ok.injEq] at h
    subst h
    refine ⟨by simp [h1, Except.toOption], by simp [h1, Except.toOption],
      ?_, by simp⟩
    exact List.dropLast_concat

/-- C10 witness: appending the raw-hours task (1, 1, 0) to an absent log file
saves the one-element list holding its resolved form. -/
theorem append_appends_exactly_one_witness :
    (update_task_proportions demoHours).toOption.isSome ∧
    [demoResolved] = load_tasks_from_csv none ++
      [(update_task_proportions demoHours).toOption.getD demoHours] ∧
    ([demoResolved] : List Task).dropLast = load_tasks_from_csv none ∧
    ([demoResolved] : List Task).length =
      (load_tasks_from_csv (none : Option (List Task))).length + 1 :=
  append_appends_exactly_one demoHours none [demoResolved]
    (by
      have h1 : update_task_proportions demoHours = .ok demoResolved := by
        norm_num [update_task_proportions, resolveTotal, demoHours,
          demoResolved, Task.mk.injEq]
      simp [append_task_to_csv, h1, load_tasks_from_csv])

end TriangleTime
